import Mathlib

/-!
Shallow embedding of the background polynomial-fitting engine of
`threeML/utils/time_series/time_series.py` (class `TimeSeries`), covering
interval validation/clipping, polynomial-grade selection, per-channel
integral queries, the polynomial-order setter, and the save/restore of
fitted backgrounds.  External numeric primitives (`polyfit`,
`unbinned_polyfit`, `exposure_over_interval`) are parameters; machinery of
the host language (exceptions, warnings, attribute lookup) is made explicit.
-/

/-- Exceptions raised by the Python code, modelled as a sum type. -/
inductive PyError where
  | runtimeError (msg : String)
  | ioError (msg : String)
  | indexError
  | attributeError (nm : String)
  | assertionError (msg : String)
deriving Repr, DecidableEq

/-- Diagnostics emitted through `custom_warnings.warn` during interval
validation; each constructor captures the numeric content of the
corresponding format string in `set_polynomial_fit_interval`. -/
inductive PyWarning where
  | startClipped (t1 t2 startTime : ℚ)
  | stopClipped (t1 t2 stopTime : ℚ)
  | droppedOutside (t1 t2 : ℚ)
deriving Repr, DecidableEq

/-- Embedding of the interval-validation loop of
`set_polynomial_fit_interval` (time_series.py lines 407-438).  The loop body
rebinds the local names `t1`, `t2` and emits warnings; after the loop the
method stores the interval set with `self._poly_intervals = poly_intervals`,
which is the original, unmodified set.  Returns the emitted warnings and the
stored interval set. -/
def set_polynomial_fit_interval_store (startTime stopTime : ℚ)
    (ivs : List (ℚ × ℚ)) : List PyWarning × List (ℚ × ℚ) :=
  (ivs.foldl (fun acc iv =>
    let t1 := iv.1
    let t2 := iv.2
    let w1 : List PyWarning × ℚ :=
      if t1 < startTime then ([PyWarning.startClipped t1 t2 startTime], startTime)
      else ([], t1)
    let t1 := w1.2
    let w2 : List PyWarning × ℚ :=
      if stopTime < t2 then ([PyWarning.stopClipped t1 t2 stopTime], stopTime)
      else ([], t2)
    let t2 := w2.2
    let w3 : List PyWarning :=
      if stopTime ≤ t1 ∨ t2 ≤ startTime then [PyWarning.droppedOutside t1 t2]
      else []
    acc ++ w1.1 ++ w2.1 ++ w3) [], ivs)

/-- Interval clipping as the spec words it (spec section 4.1): clip `t1` to
`startTime` when `t1 < startTime`, clip `t2` to `stopTime` when
`t2 > stopTime`, and drop an interval that after clipping satisfies
`stopTime ≤ t1` or `t2 ≤ startTime`. -/
def specClipIntervals (startTime stopTime : ℚ) (ivs : List (ℚ × ℚ)) :
    List (ℚ × ℚ) :=
  ivs.filterMap (fun iv =>
    let t1 := if iv.1 < startTime then startTime else iv.1
    let t2 := if stopTime < iv.2 then stopTime else iv.2
    if stopTime ≤ t1 ∨ t2 ≤ startTime then none else some (t1, t2))

/-- Embedding of the consecutive delta log-likelihoods computed by both
grade selectors: `2*(L_k - L_{k+1})` over the zipped adjacent pairs of the
likelihood list (lines 581 and 634). -/
def delta_loglike (ls : List ℚ) : List ℚ :=
  (ls.dropLast.zip ls.tail).map (fun p => 2 * (p.1 - p.2))

/-- Embedding of the grade choice shared by both selectors (lines 590-603
and 636-649): mask the deltas against the fixed threshold 9.0, take the last
nonzero index plus one, and fall back to grade zero when the mask is empty. -/
def best_grade_from (ls : List ℚ) : ℕ :=
  let dl := delta_loglike ls
  let nz := (List.range dl.length).filter (fun i => decide (9 ≤ dl.getD i 0))
  match nz.getLast? with
  | none => 0
  | some k => k + 1

/-- Embedding of `_fit_global_and_determine_optimum_grade` (lines 559-603):
run the binned regressor (`polyfit`, an external primitive represented by the
oracle `logLike` giving the log-likelihood per grade) at grades 0..4 and
apply the threshold rule to the collected likelihoods. -/
def fit_global_and_determine_optimum_grade (logLike : ℕ → ℚ) : ℕ :=
  best_grade_from ((List.range 5).map logLike)

/-- Embedding of `_unbinned_fit_global_and_determine_optimum_grade`
(lines 605-649): identical selection logic over the unbinned regressor
(`unbinned_polyfit`) likelihoods at grades 0..4. -/
def unbinned_fit_global_and_determine_optimum_grade (logLike : ℕ → ℚ) : ℕ :=
  best_grade_from ((List.range 5).map logLike)

/-- Grade selection as the spec words it: the chosen degree is the largest
`k+1` such that `D_k = 2*(L_k - L_{k+1}) ≥ 9.0`, and `0` when no `D_k`
meets the threshold. -/
def spec_selected_grade (logLike : ℕ → ℚ) : ℕ :=
  let D := fun k => 2 * (logLike k - logLike (k + 1))
  if 9 ≤ D 3 then 4
  else if 9 ≤ D 2 then 3
  else if 9 ≤ D 1 then 2
  else if 9 ≤ D 0 then 1
  else 0

/-- Modelled from the spec: a fitted per-channel polynomial as persisted and
restored by the fit-state store (the `Polynomial` class of
`threeML/utils/time_series/polynomial.py` is not under src/).  Per spec
section 3, a FittedModel carries an opaque coefficient vector and a
covariance matrix, and `Polynomial.from_previous_fit` rebuilds one from
exactly these two pieces. -/
structure BkgPolynomial where
  coefficients : List ℚ
  covariance_matrix : List (List ℚ)
deriving Repr, DecidableEq

/-- Fields of a `TimeSeries` that the save/restore pair reads and writes:
the per-channel polynomials, the resolved grade, the background interval
boundaries, the binned/unbinned flag, the fit-method identifier, and the
`_poly_fit_exists` flag guarding the save. -/
structure FitState where
  poly_fit_exists : Bool
  polynomials : List BkgPolynomial
  optimal_polynomial_grade : ℕ
  poly_starts : List ℚ
  poly_stops : List ℚ
  unbinned : Bool
  fit_method : String
deriving Repr, DecidableEq

/-- Modelled from the spec: the persistent container represents per-channel
coefficient vectors of different lengths by padding shorter ones with
trailing fill values (stored as NaN by the pandas HDF layer, which is not
under src/; the source comments at lines 971-973 record this).  A fill cell
is `none`, a finite stored value is `some q`. -/
def padTo (n : ℕ) (xs : List ℚ) : List (Option ℚ) :=
  xs.map some ++ List.replicate (n - xs.length) none

/-- Content of the HDF store written by `save_background`: the two named
tables and the metadata block attached to the coefficients table
(lines 934-942). -/
structure StoreFile where
  coefficients : List (List (Option ℚ))
  covariance : List (List (List ℚ))
  poly_order : ℕ
  poly_selections : List (ℚ × ℚ)
  unbinned : Bool
  fit_method : String
deriving Repr, DecidableEq

/-- Embedding of the store-writing body of `save_background`
(lines 915-942): refuse when no fit exists, otherwise write the per-channel
coefficient vectors (padded by the storage layer), the covariance matrices,
and the metadata block with the resolved grade, the zipped
(start, stop) interval pairs, the unbinned flag and the fit method. -/
def save_background_store (s : FitState) : Except PyError StoreFile :=
  if s.poly_fit_exists then
    let maxLen := (s.polynomials.map (fun p => p.coefficients.length)).foldl max 0
    Except.ok
      { coefficients := s.polynomials.map (fun p => padTo maxLen p.coefficients)
        covariance := s.polynomials.map (fun p => p.covariance_matrix)
        poly_order := s.optimal_polynomial_grade
        poly_selections := s.poly_starts.zip s.poly_stops
        unbinned := s.unbinned
        fit_method := s.fit_method }
  else Except.error (PyError.runtimeError ("the polynomials have not been fit yet"))

/-- State of a `TimeSeries` as rebuilt by `restore_fit`. -/
structure RestoredState where
  polynomials : List BkgPolynomial
  optimal_polynomial_grade : ℕ
  poly_starts : List ℚ
  poly_stops : List ℚ
  unbinned : Bool
  bin_type : String
  fit_method : String
  poly_fit_exists : Bool
deriving Repr, DecidableEq

/-- Embedding of `restore_fit` (lines 950-1007): for each stored channel,
keep only the finite coefficient entries (`coeff[np.isfinite(coeff)]`,
dropping the fill cells) and rebuild the polynomial from them together with
the stored covariance; restore the grade, the interval boundaries from the
stored pairs, the unbinned flag, the bin-type label, and the fit method;
finally mark the fit as existing. -/
def restore_fit (f : StoreFile) : RestoredState :=
  { polynomials := (f.coefficients.zip f.covariance).map (fun rc =>
      { coefficients := rc.1.filterMap id
        covariance_matrix := rc.2 })
    optimal_polynomial_grade := f.poly_order
    poly_starts := f.poly_selections.map Prod.fst
    poly_stops := f.poly_selections.map Prod.snd
    unbinned := f.unbinned
    bin_type := if f.unbinned then "unbinned" else "binned"
    fit_method := f.fit_method
    poly_fit_exists := true }

/-- Result tables assembled by `get_poly_info` when a fit exists:
per-channel coefficient rows and error rows. -/
structure PolyInfo where
  coefficients : List (List ℚ)
  errors : List (List ℚ)
deriving Repr, DecidableEq

/-- Observable state for the fit-product queries: whether `_poly_fit_exists`
is set, and the `_polynomials` attribute when it has been assigned (each
polynomial contributing its coefficient row and its error row). -/
structure QueryState where
  poly_fit_exists : Bool
  polynomials : Option (List (List ℚ × List ℚ))
deriving Repr, DecidableEq

/-- Embedding of `get_poly_info` (lines 133-167).  In the fit-exists branch
the coefficient and error rows are collected into the returned tables.  In
the no-fit branch the source evaluates the bare expression
`RuntimeError('A polynomial fit has not been made.')` without `raise`: the
constructed exception is discarded and the method falls off the end,
returning `None` — modelled as `Except.ok none`. -/
def get_poly_info (s : QueryState) : Except PyError (Option PolyInfo) :=
  if s.poly_fit_exists then
    match s.polynomials with
    | some ps =>
        Except.ok (some { coefficients := ps.map Prod.fst
                          errors := ps.map Prod.snd })
    | none => Except.error (PyError.attributeError ("_polynomials"))
  else
    Except.ok none

/-- Fitted per-channel model as consumed by the integral queries: its
`integral` and `integral_error` operations (external numeric primitives of
the `Polynomial` class, abstracted as functions). -/
structure FittedModel where
  integral : ℚ → ℚ → ℚ
  integral_error : ℚ → ℚ → ℚ

/-- Mask resolution shared by both integral queries (lines 178-179 and
197-198): a missing mask becomes `np.ones_like(self._polynomials)`, the
all-channels mask. -/
def resolve_mask (polys : List FittedModel) (mask : Option (List Bool)) :
    List Bool :=
  match mask with
  | none => List.replicate polys.length true
  | some m => m

/-- Embedding of `get_total_poly_count` (lines 169-186): accumulate
`p.integral(start, stop)` over the mask-selected polynomials
(`np.asarray(self._polynomials)[mask]`), starting from zero. -/
def get_total_poly_count (polys : List FittedModel) (mask : Option (List Bool))
    (start stop : ℚ) : ℚ :=
  ((polys.zip (resolve_mask polys mask)).filter (fun p => p.2)).foldl
    (fun acc p => acc + p.1.integral start stop) 0

/-- Embedding of the accumulator of `get_total_poly_error` (lines 188-205):
accumulate the squared `p.integral_error(start, stop)` over the
mask-selected polynomials; the method returns `np.sqrt` of this value
(line 205), which the theorems state through the real square root. -/
def get_total_poly_error_sq (polys : List FittedModel)
    (mask : Option (List Bool)) (start stop : ℚ) : ℚ :=
  ((polys.zip (resolve_mask polys mask)).filter (fun p => p.2)).foldl
    (fun acc p => acc + (p.1.integral_error start stop) ^ 2) 0

/-- Fields of a `TimeSeries` read by the polynomial-order setter. -/
structure PolyOrderState where
  user_poly_order : Int
  poly_fit_exists : Bool
  time_selection_exists : Bool
  poly_intervals : List (ℚ × ℚ)
  unbinned : Bool
deriving Repr, DecidableEq

/-- Call the setter dispatches to: re-running
`set_polynomial_fit_interval` on the stored interval strings with the stored
mode flag (line 326). -/
inductive RefitAction where
  | refit (intervals : List (ℚ × ℚ)) (unbinned : Bool)
deriving Repr, DecidableEq

/-- Embedding of `__set_poly_order` (lines 311-330): assert the order lies
in `[-1, 4]`, store it, and when a fit exists and a time selection exists,
refit with the stored intervals and the stored mode.  When a fit exists but
no time selection does, the source evaluates
`RuntimeError("This is a bug. Should never get here")` without `raise`, so
the call returns normally having performed no refit. -/
def set_poly_order (s : PolyOrderState) (v : Int) :
    Except PyError (PolyOrderState × List RefitAction) :=
  if -1 ≤ v ∧ v ≤ 4 then
    let s2 := { s with user_poly_order := v }
    if s.poly_fit_exists then
      if s.time_selection_exists then
        Except.ok (s2, [RefitAction.refit s.poly_intervals s.unbinned])
      else
        Except.ok (s2, [])
    else
      Except.ok (s2, [])
  else
    Except.error (PyError.assertionError
      ("Polynomial order must be 0-4 or -1 to have it determined"))

/-- Embedding of the background-mask construction of `_fit_polynomials`
(lines 670-680): build one boolean event mask per background interval, then
take `poly_mask = all_bkg_masks[0]` — an IndexError when the interval set is
empty — and or-fold the remaining masks into it. -/
def fit_polynomials_poly_mask (ivs : List (ℚ × ℚ)) (arrival_times : List ℚ) :
    Except PyError (List Bool) :=
  let all_bkg_masks := ivs.map (fun iv =>
    arrival_times.map (fun t => decide (iv.1 ≤ t ∧ t ≤ iv.2)))
  match all_bkg_masks with
  | [] => Except.error PyError.indexError
  | m :: rest =>
      Except.ok (rest.foldl (fun acc msk =>
        (acc.zip msk).map (fun p => p.1 || p.2)) m)

/-- Embedding of the opening loop of `_unbinned_fit_polynomials`
(lines 794-812): sum the per-interval exposures (an external primitive,
given as the oracle `exposure`) while building the per-interval event masks,
then take `all_bkg_masks[0]` — again an IndexError on an empty interval
set — and or-fold the rest. -/
def unbinned_fit_polynomials_poly_mask (exposure : ℚ → ℚ → ℚ)
    (ivs : List (ℚ × ℚ)) (arrival_times : List ℚ) :
    Except PyError (ℚ × List Bool) :=
  let poly_exposure := ivs.foldl (fun a iv => a + exposure iv.1 iv.2) 0
  let all_bkg_masks := ivs.map (fun iv =>
    arrival_times.map (fun t => decide (iv.1 ≤ t ∧ t ≤ iv.2)))
  match all_bkg_masks with
  | [] => Except.error PyError.indexError
  | m :: rest =>
      Except.ok (poly_exposure, rest.foldl (fun acc msk =>
        (acc.zip msk).map (fun p => p.1 || p.2)) m)

/-- Whether an error value carries a descriptive message (as the
precondition errors `RuntimeError`, `AssertionError`, `IOError` and the
attribute name of `AttributeError` do), as opposed to a bare internal
`IndexError` from a list access. -/
def PyError.isDescriptive : PyError → Bool
  | PyError.indexError => false
  | _ => true

/-- Abstract filesystem facts consulted by `save_background`: whether the
sanitized destination already exists, and whether `os.remove` on it
succeeds. -/
structure FileSys where
  path_exists : Bool
  remove_succeeds : Bool
deriving Repr, DecidableEq

/-- Embedding of the destination check of `save_background`
(lines 895-913): an existing destination without `overwrite` is refused with
an IOError naming the file; with `overwrite`, a failing `os.remove` is
turned into an IOError naming the file; otherwise execution proceeds to
write the store. -/
def save_background_file_check (fs : FileSys) (overwrite : Bool)
    (filename_sanitized : String) : Except PyError Unit :=
  if fs.path_exists then
    if overwrite then
      if fs.remove_succeeds then Except.ok ()
      else Except.error (PyError.ioError
        ("The file " ++ filename_sanitized ++
         " already exists and cannot be removed (maybe you do not have permissions to do so?). "))
    else
      Except.error (PyError.ioError
        ("The file " ++ filename_sanitized ++ " already exists!"))
  else
    Except.ok ()

/-- Embedding of the grade-resolution branch of `_fit_polynomials`
(lines 732-745): the optimum-grade routine runs only when the stored user
order is the auto sentinel `-1`; otherwise the user order is used directly.
Returns the resolved grade together with whether the selector was invoked. -/
def fit_polynomials_resolve_grade (user_poly_order : Int) (logLike : ℕ → ℚ) :
    ℕ × Bool :=
  if user_poly_order = -1 then
    (fit_global_and_determine_optimum_grade logLike, true)
  else
    (user_poly_order.toNat, false)

/-- Embedding of the grade-resolution branch of `_unbinned_fit_polynomials`
(lines 827-838), identical in structure to the binned one but invoking the
unbinned selector. -/
def unbinned_fit_polynomials_resolve_grade (user_poly_order : Int)
    (logLike : ℕ → ℚ) : ℕ × Bool :=
  if user_poly_order = -1 then
    (unbinned_fit_global_and_determine_optimum_grade logLike, true)
  else
    (user_poly_order.toNat, false)

/-- Embedding of the `unbinned` option handling of
`set_polynomial_fit_interval` (lines 391-403): when the option is absent the
mode silently defaults to `True` (unbinned). -/
def resolve_unbinned_option (options_unbinned : Option Bool) : Bool :=
  match options_unbinned with
  | some b => b
  | none => true

/-- The two fitting paths dispatched at lines 441-451. -/
inductive FitPath where
  | unbinnedPath
  | binnedPath
deriving Repr, DecidableEq

/-- Embedding of the dispatch of `set_polynomial_fit_interval`
(lines 441-451): a true flag runs `_unbinned_fit_polynomials`, a false flag
runs `_fit_polynomials`. -/
def fit_dispatch (unbinned : Bool) : FitPath :=
  if unbinned then FitPath.unbinnedPath else FitPath.binnedPath

/-- Channels selected by a boolean mask, for stating the integral queries
the way the spec does: the sub-list of fitted models whose mask entry is
true. -/
def selected_channels (polys : List FittedModel) (sel : List Bool) :
    List FittedModel :=
  ((polys.zip sel).filter (fun p => p.2)).map Prod.fst

/-- Composition of the store-writing body of `save_background` with
`restore_fit` on its output: the round trip the persistence contract is
about.  `none` records that the save itself raised. -/
def saved_then_restored (s : FitState) : Option RestoredState :=
  match save_background_store s with
  | Except.ok f => some (restore_fit f)
  | Except.error _ => none

/-- Auxiliary: the filterMap kept by `restore_fit` drops every fill cell. -/
theorem replicate_none_filterMap (k : ℕ) :
    (List.replicate k (none : Option ℚ)).filterMap id = [] := by
  induction k with
  | zero => rfl
  | succ n ih => simp [List.replicate_succ, List.filterMap_cons, ih]

/-- Auxiliary: stripping the fill values of a padded coefficient vector
recovers the original vector. -/
theorem padTo_filterMap (n : ℕ) (xs : List ℚ) :
    (padTo n xs).filterMap id = xs := by
  induction xs with
  | nil => simp [padTo, replicate_none_filterMap]
  | cons x xs ih =>
      simp only [padTo, List.map_cons, List.cons_append, List.filterMap_cons,
        id] at *
      simp_all [padTo]

/-- Auxiliary: zipping two maps of the same list is a map of pairs. -/
theorem zip_map_same {α β γ : Type} (f : α → β) (g : α → γ) (l : List α) :
    (l.map f).zip (l.map g) = l.map (fun a => (f a, g a)) := by
  induction l with
  | nil => rfl
  | cons x xs ih => simp [ih]

/-- Auxiliary: rebuilding each channel polynomial from its padded
coefficient row and its covariance row recovers the original list. -/
theorem restore_polynomials_round_trip (polys : List BkgPolynomial) (n : ℕ) :
    ((polys.map (fun p => padTo n p.coefficients)).zip
        (polys.map (fun p => p.covariance_matrix))).map (fun rc =>
      ({ coefficients := rc.1.filterMap id,
         covariance_matrix := rc.2 } : BkgPolynomial))
      = polys := by
  rw [zip_map_same, List.map_map]
  have h : ((fun rc : List (Option ℚ) × List (List ℚ) =>
      ({ coefficients := rc.1.filterMap id,
         covariance_matrix := rc.2 } : BkgPolynomial)) ∘
      (fun p : BkgPolynomial => (padTo n p.coefficients, p.covariance_matrix)))
      = fun p => p := by
    funext p
    simp [Function.comp, padTo_filterMap]
  rw [h]
  exact List.map_id polys

/-- Auxiliary: a left fold of additions starting from an accumulator is
the accumulator plus the sum of the mapped list. -/
theorem foldl_add_map {α : Type} (f : α → ℚ) (l : List α) (a : ℚ) :
    l.foldl (fun acc x => acc + f x) a = a + (l.map f).sum := by
  induction l generalizing a with
  | nil => simp
  | cons x xs ih => simp [ih, add_assoc]

/-- Auxiliary: the all-true default mask selects every polynomial. -/
theorem zip_replicate_true (l : List FittedModel) :
    (l.zip (List.replicate l.length true)).filter (fun p => p.2)
      = l.map (fun p => (p, true)) := by
  induction l with
  | nil => rfl
  | cons x xs ih =>
      rw [List.length_cons, List.replicate_succ, List.zip_cons_cons,
        List.filter_cons]
      simp [ih]

/-- C1: the spec asserts that user intervals are clipped to the data bounds
and that only the surviving clipped intervals become the stored background
interval set.  The code evaluated at the failing input
`start_time = 0`, `stop_time = 100`, interval `(-10, 5)`: the warning
announces the replacement interval `(0, 5)`, yet the stored set keeps the
original `(-10, 5)` — the clipped bounds are local variables never written
back — so the stored set differs from the clipped set the spec (and the
warning text itself) describes. -/
theorem C1_clipping_ignored_in_stored_set :
    set_polynomial_fit_interval_store 0 100 [(-10, 5)]
      = ([PyWarning.startClipped (-10) 5 0], [(-10, 5)])
    ∧ specClipIntervals 0 100 [(-10, 5)] = [(0, 5)]
    ∧ (set_polynomial_fit_interval_store 0 100 [(-10, 5)]).2
        ≠ specClipIntervals 0 100 [(-10, 5)] := by
  refine ⟨?_, ?_, ?_⟩ <;> decide

/-- C2: for every fitted state (with consistent interval boundary lists),
saving the background and restoring from the produced store reconstructs,
for every channel, the same coefficients (trailing fill values stripped on
read) and covariance matrices, the same polynomial degree, the same
background interval (start, stop) boundaries, the same binned/unbinned
mode, and the same fit-method metadata, and marks the fit as existing. -/
theorem C2_save_restore_round_trip (s : FitState)
    (hfit : s.poly_fit_exists = true)
    (hlen : s.poly_starts.length = s.poly_stops.length) :
    (saved_then_restored s).map RestoredState.polynomials
        = some s.polynomials
    ∧ (saved_then_restored s).map RestoredState.optimal_polynomial_grade
        = some s.optimal_polynomial_grade
    ∧ (saved_then_restored s).map RestoredState.poly_starts
        = some s.poly_starts
    ∧ (saved_then_restored s).map RestoredState.poly_stops
        = some s.poly_stops
    ∧ (saved_then_restored s).map RestoredState.unbinned = some s.unbinned
    ∧ (saved_then_restored s).map RestoredState.fit_method
        = some s.fit_method
    ∧ (saved_then_restored s).map RestoredState.poly_fit_exists
        = some true := by
  simp only [saved_then_restored, save_background_store, hfit, if_true,
    restore_fit, Option.map_some]
  refine ⟨?_, rfl, ?_, ?_, rfl, rfl, rfl⟩
  · exact congrArg some (restore_polynomials_round_trip s.polynomials _)
  · exact congrArg some
      (List.map_fst_zip s.poly_starts s.poly_stops (le_of_eq hlen))
  · exact congrArg some
      (List.map_snd_zip s.poly_starts s.poly_stops (ge_of_eq hlen))

/-- Witness for C2: a concrete fitted state with two channels whose
coefficient vectors have different lengths (degree-0 and degree-2), saved
and restored; the coefficient table is padded on write and stripped on
read, and the polynomials are recovered exactly. -/
theorem C2_save_restore_round_trip_witness :
    (({ poly_fit_exists := true
        polynomials := [⟨[1], [[2]]⟩,
          ⟨[3, 4, 5/2], [[1, 0, 0], [0, 1, 0], [0, 0, 1]]⟩]
        optimal_polynomial_grade := 2
        poly_starts := [0, 50]
        poly_stops := [10, 100]
        unbinned := false
        fit_method := "powell" } : FitState)).poly_fit_exists = true
    ∧ (saved_then_restored
        { poly_fit_exists := true
          polynomials := [⟨[1], [[2]]⟩,
            ⟨[3, 4, 5/2], [[1, 0, 0], [0, 1, 0], [0, 0, 1]]⟩]
          optimal_polynomial_grade := 2
          poly_starts := [0, 50]
          poly_stops := [10, 100]
          unbinned := false
          fit_method := "powell" }).map RestoredState.polynomials
        = some [⟨[1], [[2]]⟩,
            ⟨[3, 4, 5/2], [[1, 0, 0], [0, 1, 0], [0, 0, 1]]⟩] :=
  ⟨rfl, (C2_save_restore_round_trip _ rfl rfl).1⟩

/-- C3: for every sequence of log-likelihoods produced by fitting grades 0
through 4, both the binned and the unbinned grade selector choose the
largest `k+1` (k in 0..3) whose delta statistic `2*(L_k - L_{k+1})` meets
the fixed threshold 9.0, and grade 0 when no delta does. -/
theorem C3_grade_selection_rule (L : ℕ → ℚ) :
    fit_global_and_determine_optimum_grade L = spec_selected_grade L
    ∧ unbinned_fit_global_and_determine_optimum_grade L
        = spec_selected_grade L := by
  have h : best_grade_from ((List.range 5).map L) = spec_selected_grade L := by
    have hr : (List.range 5).map L = [L 0, L 1, L 2, L 3, L 4] := rfl
    rw [hr]
    simp only [best_grade_from, delta_loglike, spec_selected_grade]
    by_cases h3 : (9:ℚ) ≤ 2 * (L 3 - L 4) <;>
      by_cases h2 : (9:ℚ) ≤ 2 * (L 2 - L 3) <;>
        by_cases h1 : (9:ℚ) ≤ 2 * (L 1 - L 2) <;>
          by_cases h0 : (9:ℚ) ≤ 2 * (L 0 - L 1) <;>
            simp [List.range, List.range.loop, List.filter, h0, h1, h2, h3,
              List.getLast?]
  exact ⟨h, h⟩

/-- C4: the spec asserts that reading fit products in the no-fit state
raises an error.  The code evaluated at the failing input — `get_poly_info`
on a TimeSeries whose `_poly_fit_exists` is false — returns `None` without
raising: the `RuntimeError` in the else-branch is constructed but never
raised. -/
theorem C4_get_poly_info_no_fit_returns_none :
    get_poly_info { poly_fit_exists := false, polynomials := none }
      = Except.ok none := rfl

/-- Counterexample for C5: in the fit-exists state with no time selection,
setting the polynomial order to 2 returns normally with an empty action
list — no refit is dispatched (and the internal `RuntimeError` of that
branch is constructed but not raised), refuting the claim that every order
change in the fit-exists state triggers a refit. -/
theorem C5_no_refit_without_time_selection :
    set_poly_order
      { user_poly_order := -1, poly_fit_exists := true,
        time_selection_exists := false, poly_intervals := [(0, 10)],
        unbinned := true } 2
    = Except.ok
      ({ user_poly_order := 2, poly_fit_exists := true,
         time_selection_exists := false, poly_intervals := [(0, 10)],
         unbinned := true }, []) := rfl

/-- C5 (amended): in the fit-exists state with a time selection also
existing, setting the polynomial order to any value in `[-1, 4]` stores the
order and dispatches exactly one refit that uses the previously stored
background intervals and the previously stored binned/unbinned mode. -/
theorem C5_refit_uses_stored_selections (s : PolyOrderState) (v : Int)
    (h1 : -1 ≤ v) (h2 : v ≤ 4) (hf : s.poly_fit_exists = true)
    (ht : s.time_selection_exists = true) :
    set_poly_order s v
      = Except.ok ({ s with user_poly_order := v },
          [RefitAction.refit s.poly_intervals s.unbinned]) := by
  simp [set_poly_order, h1, h2, hf, ht]

/-- Witness for C5 (amended): a concrete fit-exists state with a time
selection, order set to 3; the dispatched refit carries the stored
intervals `[(0, 10)]` and the stored binned mode. -/
theorem C5_refit_uses_stored_selections_witness :
    set_poly_order
      { user_poly_order := -1, poly_fit_exists := true,
        time_selection_exists := true, poly_intervals := [(0, 10)],
        unbinned := false } 3
    = Except.ok
      ({ user_poly_order := 3, poly_fit_exists := true,
         time_selection_exists := true, poly_intervals := [(0, 10)],
         unbinned := false },
       [RefitAction.refit [(0, 10)] false]) :=
  C5_refit_uses_stored_selections _ 3 (by decide) (by decide) rfl rfl

/-- Counterexample for C6: on the empty background interval set, both
fitting paths fail with a bare `IndexError` from the
`all_bkg_masks[0]` access — an error that carries no description — refuting
the claim that the failure is a descriptive precondition error. -/
theorem C6_empty_set_index_error :
    fit_polynomials_poly_mask [] [0, 1, 2] = Except.error PyError.indexError
    ∧ unbinned_fit_polynomials_poly_mask (fun a b => b - a) [] [0, 1, 2]
        = Except.error PyError.indexError
    ∧ PyError.isDescriptive PyError.indexError = false :=
  ⟨rfl, rfl, rfl⟩

/-- C6 (amended): on every empty background interval set, both the binned
and the unbinned fitting path fail by raising an error (an `IndexError`
from the internal `all_bkg_masks[0]` access) rather than producing a
zero-filled result; the error is not a descriptive precondition error. -/
theorem C6_empty_set_fitting_errors (arrival_times : List ℚ)
    (exposure : ℚ → ℚ → ℚ) :
    fit_polynomials_poly_mask [] arrival_times
        = Except.error PyError.indexError
    ∧ unbinned_fit_polynomials_poly_mask exposure [] arrival_times
        = Except.error PyError.indexError :=
  ⟨rfl, rfl⟩

/-- C7: for every interval `[a, b]` and channel mask, `get_total_poly_count`
is the sum over the selected channels of the per-channel `integral(a, b)`,
`get_total_poly_error` is the square root of the sum of the squared
per-channel `integral_error(a, b)` over the selected channels, and a
missing mask defaults to all channels for both queries. -/
theorem C7_total_count_and_error (polys : List FittedModel)
    (mask : List Bool) (a b : ℚ) :
    get_total_poly_count polys (some mask) a b
        = ((selected_channels polys mask).map (fun p => p.integral a b)).sum
    ∧ get_total_poly_count polys none a b
        = (polys.map (fun p => p.integral a b)).sum
    ∧ Real.sqrt (get_total_poly_error_sq polys (some mask) a b)
        = Real.sqrt ((((selected_channels polys mask).map
            (fun p => (p.integral_error a b) ^ 2)).sum : ℚ))
    ∧ Real.sqrt (get_total_poly_error_sq polys none a b)
        = Real.sqrt (((polys.map
            (fun p => (p.integral_error a b) ^ 2)).sum : ℚ)) := by
  refine ⟨?_, ?_, ?_, ?_⟩
  · simp [get_total_poly_count, selected_channels, resolve_mask,
      foldl_add_map, List.map_map, Function.comp_def]
  · simp [get_total_poly_count, resolve_mask, foldl_add_map,
      zip_replicate_true, List.map_map, Function.comp_def]
  · congr 1
    exact_mod_cast (by
      simp [get_total_poly_error_sq, selected_channels, resolve_mask,
        foldl_add_map, List.map_map, Function.comp_def] :
      get_total_poly_error_sq polys (some mask) a b
        = (((selected_channels polys mask).map
            (fun p => (p.integral_error a b) ^ 2)).sum : ℚ))
  · congr 1
    exact_mod_cast (by
      simp [get_total_poly_error_sq, resolve_mask, zip_replicate_true,
        foldl_add_map, List.map_map, Function.comp_def] :
      get_total_poly_error_sq polys none a b
        = ((polys.map (fun p => (p.integral_error a b) ^ 2)).sum : ℚ))

/-- C8: `save_background` refuses an existing destination without
`overwrite`, raising an `IOError` naming the file; and with `overwrite`
authorized but removal failing, it raises a descriptive `IOError` naming
the file, before any store is written. -/
theorem C8_save_background_overwrite_guard (fs : FileSys) (p : String)
    (hex : fs.path_exists = true) :
    save_background_file_check fs false p
        = Except.error (PyError.ioError
            ("The file " ++ p ++ " already exists!"))
    ∧ (fs.remove_succeeds = false →
        save_background_file_check fs true p
          = Except.error (PyError.ioError
              ("The file " ++ p ++
               " already exists and cannot be removed (maybe you do not have permissions to do so?). "))) := by
  constructor
  · simp [save_background_file_check, hex]
  · intro hr
    simp [save_background_file_check, hex, hr]

/-- Witness for C8: a concrete filesystem where the destination exists and
removal fails, at the concrete path `bkg.h5`: both refusals hold. -/
theorem C8_save_background_overwrite_guard_witness :
    ({ path_exists := true, remove_succeeds := false } : FileSys).path_exists
        = true
    ∧ (save_background_file_check
          { path_exists := true, remove_succeeds := false } false ("bkg.h5")
        = Except.error (PyError.ioError
            ("The file " ++ "bkg.h5" ++ " already exists!"))
      ∧ (({ path_exists := true,
            remove_succeeds := false } : FileSys).remove_succeeds = false →
          save_background_file_check
              { path_exists := true, remove_succeeds := false } true ("bkg.h5")
            = Except.error (PyError.ioError
                ("The file " ++ "bkg.h5" ++
                 " already exists and cannot be removed (maybe you do not have permissions to do so?). ")))) :=
  ⟨rfl, C8_save_background_overwrite_guard _ ("bkg.h5") rfl⟩

/-- C9: for every explicitly supplied degree in `{0, ..., 4}` both fitting
paths use that degree directly without invoking the grade selector, and the
selector is invoked exactly when the stored user order is the auto sentinel
`-1`. -/
theorem C9_explicit_degree_skips_selector (d : Int) (L : ℕ → ℚ)
    (h0 : 0 ≤ d) (h4 : d ≤ 4) :
    fit_polynomials_resolve_grade d L = (d.toNat, false)
    ∧ unbinned_fit_polynomials_resolve_grade d L = (d.toNat, false)
    ∧ (∀ u : Int, (fit_polynomials_resolve_grade u L).2 = true ↔ u = -1)
    ∧ (∀ u : Int,
        (unbinned_fit_polynomials_resolve_grade u L).2 = true ↔ u = -1) := by
  have hne : d ≠ -1 := by omega
  refine ⟨?_, ?_, ?_, ?_⟩
  · simp [fit_polynomials_resolve_grade, hne]
  · simp [unbinned_fit_polynomials_resolve_grade, hne]
  · intro u
    by_cases hu : u = -1 <;> simp [fit_polynomials_resolve_grade, hu]
  · intro u
    by_cases hu : u = -1 <;>
      simp [unbinned_fit_polynomials_resolve_grade, hu]

/-- Witness for C9: the concrete explicit degree 3 with a constant
log-likelihood oracle resolves to grade 3 on both paths with the selector
not invoked. -/
theorem C9_explicit_degree_skips_selector_witness :
    (0 : Int) ≤ 3 ∧ (3 : Int) ≤ 4
    ∧ fit_polynomials_resolve_grade 3 (fun _ => 0) = (3, false)
    ∧ unbinned_fit_polynomials_resolve_grade 3 (fun _ => 0) = (3, false) :=
  ⟨by decide, by decide,
    (C9_explicit_degree_skips_selector 3 (fun _ => 0) (by decide)
      (by decide)).1,
    (C9_explicit_degree_skips_selector 3 (fun _ => 0) (by decide)
      (by decide)).2.1⟩

/-- C10: when the `unbinned` option is absent, `set_polynomial_fit_interval`
silently defaults the mode to unbinned, dispatching the unbinned fitting
path; the binned path runs exactly when the caller passes
`unbinned=False` explicitly. -/
theorem C10_unbinned_default :
    fit_dispatch (resolve_unbinned_option none) = FitPath.unbinnedPath
    ∧ (∀ o : Option Bool,
        fit_dispatch (resolve_unbinned_option o) = FitPath.binnedPath
          ↔ o = some false) := by
  constructor
  · rfl
  · intro o
    match o with
    | none => simp [resolve_unbinned_option, fit_dispatch]
    | some true => simp [resolve_unbinned_option, fit_dispatch]
    | some false => simp [resolve_unbinned_option, fit_dispatch]
